import Mathlib

/-!
Shallow embedding of the k8s-rdma-sriov-dev-plugin device plugin
(file `server.go`) and proofs about it.

The program is a Kubernetes device plugin: it builds a device inventory
from SR-IOV virtual functions, serves the device-plugin gRPC protocol
(ListAndWatch, Allocate, ...), and manages its listening socket's
lifecycle.  External effects (the sriovnet library, the gRPC transport,
the filesystem socket file, channels) are modelled by explicit
environments and state records; each Lean definition mirrors one Go
function of `server.go`.
-/

namespace RdmaSriov

/-- Health of an exposed device (`pluginapi.Healthy` / `pluginapi.Unhealthy`). -/
inductive Health
  | healthy
  | unhealthy
  deriving DecidableEq, Repr

/-- `pluginapi.Device`: one allocatable virtual device, with its
MAC-derived identifier and its health (`server.go` builds these at
lines 85-88). -/
structure Device where
  id : String
  health : Health
  deriving DecidableEq, Repr

/-- `RdmaDevices = "/dev/infiniband"` (server.go:26). -/
def RdmaDevices : String := "/dev/infiniband"

/-- `RdmaSriovResourceName = "rdma/vhca"` (server.go:22). -/
def RdmaSriovResourceName : String := "rdma/vhca"

/-!  ## ListAndWatch (server.go:186-200)

The Go loop holds the device list `m.devs`, first sends a snapshot,
then selects between the stop channel and the health channel.  A health
signal carries a pointer to a device of the list; the loop sets that
device's health to Unhealthy in place and re-sends the whole list.  We
model the signal as the index of the device in the list, the stream's
`Send` by recording the emitted list (the Go code discards `Send`'s
result, so the send outcomes come from an oracle `sendOk` and are
recorded but never branched on), and the events consumed by the
`select` as a list. -/

/-- One event consumed by the `select` in the ListAndWatch loop:
either the stop channel fires, or a health signal arrives for the
device at index `i` of the device list. -/
inductive LWEvent
  | stop
  | healthSig (i : Nat)
  deriving DecidableEq, Repr

/-- `d.Health = pluginapi.Unhealthy` (server.go:196): mark the signalled
device unhealthy in place; indices past the end leave the list unchanged
(a signal whose device is not in the list mutates nothing in the list). -/
def setUnhealthy : List Device → Nat → List Device
  | [], _ => []
  | d :: ds, 0 => { d with health := Health.unhealthy } :: ds
  | d :: ds, n + 1 => d :: setUnhealthy ds n

/-- Outcome of one ListAndWatch call: the final device list, the
payloads of all attempted stream sends in order, each send's transport
result (discarded by the code), and the exit status — `none` while the
loop is still blocked, `some e` when the call returned with gRPC error
`e` (`some none` is `return nil`). -/
structure LWResult where
  finalDevs : List Device
  emissions : List (List Device)
  sendResults : List Bool
  exit : Option (Option String)
  deriving DecidableEq, Repr

/-- The `for { select { ... } }` loop of ListAndWatch (server.go:190-199).
`sendOk k` is the transport result of the k-th send; the code binds and
discards it (`s.Send(...)` with no error check). -/
def lwLoop (sendOk : Nat → Bool) : List Device → Nat → List LWEvent → LWResult
  | devs, _, [] => ⟨devs, [], [], none⟩
  | devs, _, LWEvent.stop :: _ => ⟨devs, [], [], some none⟩
  | devs, k, LWEvent.healthSig i :: evs =>
    let devs2 := setUnhealthy devs i
    let r := sendOk k
    let rest := lwLoop sendOk devs2 (k + 1) evs
    ⟨rest.finalDevs, devs2 :: rest.emissions, r :: rest.sendResults, rest.exit⟩

/-- A whole ListAndWatch call (server.go:186-200): the initial snapshot
send of the current device list, then the loop. -/
def listAndWatchRun (sendOk : Nat → Bool) (devs : List Device)
    (events : List LWEvent) : LWResult :=
  let r0 := sendOk 0
  let rest := lwLoop sendOk devs 1 events
  ⟨rest.finalDevs, devs :: rest.emissions, r0 :: rest.sendResults, rest.exit⟩

/-! ### Basic lemmas about `setUnhealthy` -/

theorem setUnhealthy_length : ∀ (devs : List Device) (i : Nat),
    (setUnhealthy devs i).length = devs.length
  | [], _ => rfl
  | _ :: _, 0 => rfl
  | _ :: ds, n + 1 => congrArg Nat.succ (setUnhealthy_length ds n)

theorem setUnhealthy_map_id : ∀ (devs : List Device) (i : Nat),
    (setUnhealthy devs i).map Device.id = devs.map Device.id
  | [], _ => rfl
  | _ :: _, 0 => rfl
  | d :: ds, n + 1 => congrArg (List.cons d.id) (setUnhealthy_map_id ds n)

theorem setUnhealthy_getElem_ne (devs : List Device) : ∀ (i j : Nat), j ≠ i →
    (setUnhealthy devs i)[j]? = devs[j]? := by
  induction devs with
  | nil => intro i j _; rfl
  | cons d ds ih =>
    intro i j hne
    cases i with
    | zero =>
      cases j with
      | zero => exact absurd rfl hne
      | succ j => simp [setUnhealthy]
    | succ i =>
      cases j with
      | zero => simp [setUnhealthy]
      | succ j =>
        simp only [setUnhealthy, List.getElem?_cons_succ]
        exact ih i j (fun hh => hne (by omega))

theorem setUnhealthy_getElem_self (devs : List Device) : ∀ (i : Nat),
    i < devs.length →
    ((setUnhealthy devs i)[i]?).map Device.health = some Health.unhealthy := by
  induction devs with
  | nil => intro i h; simp at h
  | cons d ds ih =>
    intro i h
    cases i with
    | zero => simp [setUnhealthy]
    | succ i =>
      simp only [setUnhealthy, List.getElem?_cons_succ]
      exact ih i (by simpa using h)

theorem setUnhealthy_idem : ∀ (devs : List Device) (i : Nat),
    setUnhealthy (setUnhealthy devs i) i = setUnhealthy devs i
  | [], _ => rfl
  | _ :: _, 0 => rfl
  | d :: ds, n + 1 => congrArg (List.cons d) (setUnhealthy_idem ds n)

theorem setUnhealthy_health_mono (devs : List Device) : ∀ (i j : Nat),
    (devs[j]?).map Device.health = some Health.unhealthy →
    ((setUnhealthy devs i)[j]?).map Device.health = some Health.unhealthy := by
  induction devs with
  | nil => intro i j h; exact h
  | cons d ds ih =>
    intro i j h
    cases i with
    | zero =>
      cases j with
      | zero => simp [setUnhealthy]
      | succ j => simpa [setUnhealthy] using h
    | succ i =>
      cases j with
      | zero => simpa [setUnhealthy] using h
      | succ j =>
        simp only [setUnhealthy, List.getElem?_cons_succ] at h ⊢
        exact ih i j h

/-! ### Lemmas about the ListAndWatch loop -/

/-- Unfolding the loop at a health signal: the signalled device is
marked unhealthy and exactly one send of the updated list happens
before the loop continues. -/
theorem lwLoop_healthSig (sendOk : Nat → Bool) (devs : List Device) (k i : Nat)
    (evs : List LWEvent) :
    lwLoop sendOk devs k (LWEvent.healthSig i :: evs) =
      ⟨(lwLoop sendOk (setUnhealthy devs i) (k + 1) evs).finalDevs,
       setUnhealthy devs i :: (lwLoop sendOk (setUnhealthy devs i) (k + 1) evs).emissions,
       sendOk k :: (lwLoop sendOk (setUnhealthy devs i) (k + 1) evs).sendResults,
       (lwLoop sendOk (setUnhealthy devs i) (k + 1) evs).exit⟩ := rfl

/-- Unfolding the loop at a stop signal: the call returns `nil`
immediately, consuming no later event. -/
theorem lwLoop_stop (sendOk : Nat → Bool) (devs : List Device) (k : Nat)
    (evs : List LWEvent) :
    lwLoop sendOk devs k (LWEvent.stop :: evs) = ⟨devs, [], [], some none⟩ := rfl

theorem lwLoop_finalDevs_length (sendOk : Nat → Bool) :
    ∀ (evs : List LWEvent) (devs : List Device) (k : Nat),
      (lwLoop sendOk devs k evs).finalDevs.length = devs.length := by
  intro evs
  induction evs with
  | nil => intro devs k; rfl
  | cons ev evs ih =>
    intro devs k
    cases ev with
    | stop => rfl
    | healthSig i =>
      rw [lwLoop_healthSig]
      exact (ih (setUnhealthy devs i) (k + 1)).trans (setUnhealthy_length devs i)

theorem lwLoop_finalDevs_map_id (sendOk : Nat → Bool) :
    ∀ (evs : List LWEvent) (devs : List Device) (k : Nat),
      (lwLoop sendOk devs k evs).finalDevs.map Device.id = devs.map Device.id := by
  intro evs
  induction evs with
  | nil => intro devs k; rfl
  | cons ev evs ih =>
    intro devs k
    cases ev with
    | stop => rfl
    | healthSig i =>
      rw [lwLoop_healthSig]
      exact (ih (setUnhealthy devs i) (k + 1)).trans (setUnhealthy_map_id devs i)

theorem lwLoop_emissions_shape (sendOk : Nat → Bool) :
    ∀ (evs : List LWEvent) (devs : List Device) (k : Nat),
      ∀ em ∈ (lwLoop sendOk devs k evs).emissions,
        em.length = devs.length ∧ em.map Device.id = devs.map Device.id := by
  intro evs
  induction evs with
  | nil => intro devs k em hm; simp [lwLoop] at hm
  | cons ev evs ih =>
    intro devs k em hm
    cases ev with
    | stop => simp [lwLoop_stop] at hm
    | healthSig i =>
      rw [lwLoop_healthSig] at hm
      rcases List.mem_cons.mp hm with h | h
      · subst h
        exact ⟨setUnhealthy_length devs i, setUnhealthy_map_id devs i⟩
      · rcases ih (setUnhealthy devs i) (k + 1) em h with ⟨h1, h2⟩
        exact ⟨h1.trans (setUnhealthy_length devs i),
               h2.trans (setUnhealthy_map_id devs i)⟩

theorem lwLoop_health_mono (sendOk : Nat → Bool) :
    ∀ (evs : List LWEvent) (devs : List Device) (k j : Nat),
      (devs[j]?).map Device.health = some Health.unhealthy →
      ((lwLoop sendOk devs k evs).finalDevs[j]?).map Device.health
        = some Health.unhealthy := by
  intro evs
  induction evs with
  | nil => intro devs k j h; exact h
  | cons ev evs ih =>
    intro devs k j h
    cases ev with
    | stop => exact h
    | healthSig i =>
      rw [lwLoop_healthSig]
      exact ih (setUnhealthy devs i) (k + 1) j (setUnhealthy_health_mono devs i j h)

theorem lwLoop_oracle_indep (o1 o2 : Nat → Bool) :
    ∀ (evs : List LWEvent) (devs : List Device) (k1 k2 : Nat),
      (lwLoop o1 devs k1 evs).finalDevs = (lwLoop o2 devs k2 evs).finalDevs
      ∧ (lwLoop o1 devs k1 evs).emissions = (lwLoop o2 devs k2 evs).emissions
      ∧ (lwLoop o1 devs k1 evs).exit = (lwLoop o2 devs k2 evs).exit := by
  intro evs
  induction evs with
  | nil => intro devs k1 k2; exact ⟨rfl, rfl, rfl⟩
  | cons ev evs ih =>
    intro devs k1 k2
    cases ev with
    | stop => exact ⟨rfl, rfl, rfl⟩
    | healthSig i =>
      rw [lwLoop_healthSig, lwLoop_healthSig]
      rcases ih (setUnhealthy devs i) (k1 + 1) (k2 + 1) with ⟨h1, h2, h3⟩
      exact ⟨h1, by rw [h2], h3⟩

theorem lwLoop_exit_iff_stop (sendOk : Nat → Bool) :
    ∀ (evs : List LWEvent) (devs : List Device) (k : Nat),
      ((lwLoop sendOk devs k evs).exit = some none ↔ LWEvent.stop ∈ evs)
      ∧ ∀ e : String, ¬ (lwLoop sendOk devs k evs).exit = some (some e) := by
  intro evs
  induction evs with
  | nil =>
    intro devs k
    exact ⟨by simp [lwLoop], by intro e h; simp [lwLoop] at h⟩
  | cons ev evs ih =>
    intro devs k
    cases ev with
    | stop =>
      refine ⟨by simp [lwLoop_stop], ?_⟩
      intro e h
      rw [lwLoop_stop] at h
      simp at h
    | healthSig i =>
      rw [lwLoop_healthSig]
      rcases ih (setUnhealthy devs i) (k + 1) with ⟨h1, h2⟩
      refine ⟨h1.trans ?_, h2⟩
      constructor
      · intro hm; exact List.mem_cons_of_mem _ hm
      · intro hm
        rcases List.mem_cons.mp hm with h | h
        · exact absurd h (by simp)
        · exact h

/-! ## Device inventory builder (server.go:45-103)

The sriovnet library calls are external effects; they are modelled by an
environment record.  `getVfDefaultMacAddr` returns a pair (id, error)
because the Go call returns two values — and the code at server.go:84
ignores the error (`id, _ := ...`). -/

/-- `sriovnet.PfNetdevHandle`: only its `List` of VF objects is used by
the plugin; a VF object is abstracted to a token. -/
structure PfNetdevHandle where
  list : List Nat
  deriving DecidableEq, Repr

/-- The sriovnet library, as an environment: each field models one
library call made by `server.go`. `none` / `Except.ok` is the success
case of the corresponding Go error value. -/
structure SriovEnv where
  enableSriov : String → Option String
  getPfNetdevHandle : String → Except String PfNetdevHandle
  configVfs : PfNetdevHandle → Option String
  getVfNetdevName : PfNetdevHandle → Nat → String
  getVfDefaultMacAddr : String → String × Option String

/-- `configSriov` (server.go:45-65): enable SR-IOV, get the PF handle,
provision the VFs; the first failing step aborts with its error. -/
def configSriov (env : SriovEnv) (pfNetdevName : String) :
    Except String PfNetdevHandle :=
  match env.enableSriov pfNetdevName with
  | some e => Except.error e
  | none =>
    match env.getPfNetdevHandle pfNetdevName with
    | Except.error e => Except.error e
    | Except.ok pfHandle =>
      match env.configVfs pfHandle with
      | some e => Except.error e
      | none => Except.ok pfHandle

/-- The device built for one VF (server.go:83-88): its id is the VF's
default MAC address, the error of the MAC lookup being discarded, and
its health starts Healthy. -/
def vfDevice (env : SriovEnv) (pfHandle : PfNetdevHandle) (vf : Nat) : Device :=
  let vfNetdevName := env.getVfNetdevName pfHandle vf
  let id := (env.getVfDefaultMacAddr vfNetdevName).1
  { id := id, health := Health.healthy }

/-- The device-list construction of `NewRdmaSriovDevPlugin`
(server.go:70-92): fold over the configured PF names, skipping (with
only a log line) every PF whose configuration fails, and appending one
device per VF of each PF that succeeds.  An empty configuration is only
logged and yields the empty list. -/
def newRdmaSriovDevPluginDevs (env : SriovEnv) (pfNetdevices : List String) :
    List Device :=
  pfNetdevices.foldl
    (fun devs ndev =>
      match configSriov env ndev with
      | Except.error _ => devs
      | Except.ok pfHandle => devs ++ pfHandle.list.map (vfDevice env pfHandle))
    []

/-- The devices one PF name contributes: none when its configuration
fails, one per VF when it succeeds. -/
def pfVfDevices (env : SriovEnv) (ndev : String) : List Device :=
  match configSriov env ndev with
  | Except.error _ => []
  | Except.ok pfHandle => pfHandle.list.map (vfDevice env pfHandle)

/-- The MAC-derived ids one PF name contributes. -/
def pfVfIds (env : SriovEnv) (ndev : String) : List String :=
  match configSriov env ndev with
  | Except.error _ => []
  | Except.ok pfHandle =>
    pfHandle.list.map
      (fun vf => (env.getVfDefaultMacAddr (env.getVfNetdevName pfHandle vf)).1)

theorem newDevs_foldl_acc (env : SriovEnv) :
    ∀ (l : List String) (acc : List Device),
      l.foldl
        (fun devs ndev =>
          match configSriov env ndev with
          | Except.error _ => devs
          | Except.ok pfHandle => devs ++ pfHandle.list.map (vfDevice env pfHandle))
        acc = acc ++ l.flatMap (pfVfDevices env) := by
  intro l
  induction l with
  | nil => intro acc; simp
  | cons ndev l ih =>
    intro acc
    rw [List.foldl_cons, List.flatMap_cons, ih]
    cases h : configSriov env ndev with
    | error e => simp [pfVfDevices, h]
    | ok pfHandle => simp [pfVfDevices, h]

/-- The inventory is the in-order concatenation of the contributions of
the successful PF names. -/
theorem newDevs_eq_bind (env : SriovEnv) (l : List String) :
    newRdmaSriovDevPluginDevs env l = l.flatMap (pfVfDevices env) := by
  rw [newRdmaSriovDevPluginDevs, newDevs_foldl_acc]
  simp

theorem pfVfDevices_health (env : SriovEnv) (ndev : String) :
    ∀ d ∈ pfVfDevices env ndev, d.health = Health.healthy := by
  intro d hd
  rw [pfVfDevices] at hd
  cases h : configSriov env ndev with
  | error e => rw [h] at hd; simp at hd
  | ok pfHandle =>
    rw [h] at hd
    rcases List.mem_map.mp hd with ⟨vf, _, hv⟩
    rw [← hv]
    rfl

theorem pfVfDevices_map_id (env : SriovEnv) (ndev : String) :
    (pfVfDevices env ndev).map Device.id = pfVfIds env ndev := by
  rw [pfVfDevices, pfVfIds]
  cases configSriov env ndev with
  | error e => rfl
  | ok pfHandle => rw [List.map_map]; rfl

/-! ## Allocate (server.go:207-230) -/

/-- `pluginapi.ContainerAllocateRequest`: the device IDs one container
asks for (accepted but never read by the code). -/
structure ContainerAllocateRequest where
  devicesIDs : List String
  deriving DecidableEq, Repr

/-- `pluginapi.DeviceSpec`. -/
structure DeviceSpec where
  hostPath : String
  containerPath : String
  permissions : String
  deriving DecidableEq, Repr

/-- `pluginapi.ContainerAllocateResponse`: the device specs granted to
one container. -/
structure ContainerAllocateResponse where
  devices : List DeviceSpec
  deriving DecidableEq, Repr

/-- `pluginapi.AllocateResponse`. -/
structure AllocateResponse where
  containerResponses : List ContainerAllocateResponse
  deriving DecidableEq, Repr

/-- The device spec granted to every container (server.go:214-218). -/
def rdmaDeviceSpec : DeviceSpec :=
  { hostPath := RdmaDevices, containerPath := RdmaDevices, permissions := "rwm" }

/-- `Allocate` (server.go:207-230): one response per container request,
each granting the single fixed device spec; the loop `for i, _ := range`
discards the request content, and the function always returns
`(&response, nil)`. -/
def Allocate (r : List ContainerAllocateRequest) :
    Except String AllocateResponse :=
  Except.ok { containerResponses := r.map (fun _ => { devices := [rdmaDeviceSpec] }) }

/-! ## Plugin lifecycle (server.go:122-161, 164-183, 242-268)

The observable state of one `RdmaSriovDevPlugin` and of its socket
file: `server` is `m.server` (`none` = nil), `stopClosed` records
whether `close(m.stop)` has run, `healthClosed` whether `close(m.health)`
has ever run, `socketExists` whether the socket file exists, and
`registered` whether a registration request has been accepted by the
kubelet. -/
structure PluginState where
  devs : List Device
  server : Option Unit
  stopClosed : Bool
  healthClosed : Bool
  socketExists : Bool
  registered : Bool
  deriving DecidableEq, Repr

/-- What a call to `Stop` does: returns an error value, or panics
(`close` of a closed channel panics in Go). -/
inductive StopOutcome
  | ret (err : Option String)
  | crash (msg : String)
  deriving DecidableEq, Repr

/-- `cleanup` (server.go:242-248): remove the socket file; a missing
file gives `IsNotExist`, which is swallowed, so the call returns nil. -/
def cleanup (s : PluginState) : PluginState × Option String :=
  ({ s with socketExists := false }, none)

/-- `Stop` (server.go:151-161): a nil server makes the call a no-op;
otherwise stop the gRPC server, nil the field, `close(m.stop)` (a
panic if that channel is already closed), and run `cleanup`.  The
health channel is never closed. -/
def Stop (s : PluginState) : PluginState × StopOutcome :=
  if s.server = none then (s, StopOutcome.ret none)
  else
    let s1 := { s with server := none }
    if s1.stopClosed then (s1, StopOutcome.crash "close of closed channel")
    else
      let s2 := { s1 with stopClosed := true }
      let c := cleanup s2
      (c.1, StopOutcome.ret c.2)

/-- Failures of the external transport during Start/Register, as an
environment: `listenErr` for `net.Listen`, `probeErr` for the
self-dial probe, `registerDialErr` for dialling the kubelet, and
`registerCallErr` for the registration RPC itself. -/
structure ServeEnv where
  listenErr : Option String
  probeErr : Option String
  registerDialErr : Option String
  registerCallErr : Option String
  deriving DecidableEq, Repr

/-- `Start` (server.go:122-148): cleanup the stale socket, bind the
listening socket (creating the socket file and the server), then probe
it by a self-dial with a 5s timeout; either failure is returned. -/
def Start (env : ServeEnv) (s : PluginState) : PluginState × Option String :=
  match cleanup s with
  | (s0, some e) => (s0, some e)
  | (s0, none) =>
    match env.listenErr with
    | some e => (s0, some e)
    | none =>
      let s1 := { s0 with socketExists := true, server := some () }
      match env.probeErr with
      | some e => (s1, some e)
      | none => (s1, none)

/-- `Register` (server.go:164-183): dial the kubelet and send the
registration request; either failure is returned, success records the
registration. -/
def Register (env : ServeEnv) (s : PluginState) : PluginState × Option String :=
  match env.registerDialErr with
  | some e => (s, some e)
  | none =>
    match env.registerCallErr with
    | some e => (s, some e)
    | none => ({ s with registered := true }, none)

/-- `Serve` (server.go:251-268): Start, then Register; a Start failure
is returned as is; a Register failure triggers `m.Stop()` (its result
discarded) and is then returned. -/
def Serve (env : ServeEnv) (s : PluginState) : PluginState × Option String :=
  match Start env s with
  | (s1, some e) => (s1, some e)
  | (s1, none) =>
    match Register env s1 with
    | (s2, some e) =>
      let st := Stop s2
      (st.1, some e)
    | (s2, none) => (s2, none)

/-! ## Helper lemmas about the lifecycle operations -/

theorem Stop_devs (s : PluginState) : (Stop s).1.devs = s.devs := by
  unfold Stop
  split
  · rfl
  · by_cases hc : s.stopClosed <;> simp [hc, cleanup]

theorem Start_devs (env : ServeEnv) (s : PluginState) :
    (Start env s).1.devs = s.devs := by
  cases hl : env.listenErr with
  | some e => simp [Start, cleanup, hl]
  | none =>
    cases hp : env.probeErr with
    | some e => simp [Start, cleanup, hl, hp]
    | none => simp [Start, cleanup, hl, hp]

theorem Register_devs (env : ServeEnv) (s : PluginState) :
    (Register env s).1.devs = s.devs := by
  cases hd : env.registerDialErr with
  | some e => simp [Register, hd]
  | none =>
    cases hc : env.registerCallErr with
    | some e => simp [Register, hd, hc]
    | none => simp [Register, hd, hc]

theorem Serve_devs (env : ServeEnv) (s : PluginState) :
    (Serve env s).1.devs = s.devs := by
  cases hl : env.listenErr with
  | some e => simp [Serve, Start, cleanup, hl]
  | none =>
    cases hp : env.probeErr with
    | some e => simp [Serve, Start, cleanup, hl, hp]
    | none =>
      cases hd : env.registerDialErr with
      | some e => simp [Serve, Start, Register, cleanup, hl, hp, hd, Stop_devs]
      | none =>
        cases hc : env.registerCallErr with
        | some e => simp [Serve, Start, Register, cleanup, hl, hp, hd, hc, Stop_devs]
        | none => simp [Serve, Start, Register, cleanup, hl, hp, hd, hc]

theorem Start_registered (env : ServeEnv) (s : PluginState) :
    (Start env s).1.registered = s.registered := by
  cases hl : env.listenErr with
  | some e => simp [Start, cleanup, hl]
  | none =>
    cases hp : env.probeErr with
    | some e => simp [Start, cleanup, hl, hp]
    | none => simp [Start, cleanup, hl, hp]

/-! ## Concrete fixtures used by witnesses and counterexamples -/

/-- A sriovnet environment in which every SR-IOV enablement fails. -/
def failEnv : SriovEnv where
  enableSriov := fun _ => some "sriov not supported"
  getPfNetdevHandle := fun _ => Except.error "no handle"
  configVfs := fun _ => none
  getVfNetdevName := fun _ vf => "vf" ++ toString vf
  getVfDefaultMacAddr := fun n => (n, none)

/-- A sriovnet environment in which one PF succeeds with two VFs whose
MAC lookup fails: the code ignores that error, so both VFs get the
empty id. -/
def dupMacEnv : SriovEnv where
  enableSriov := fun _ => none
  getPfNetdevHandle := fun _ => Except.ok { list := [0, 1] }
  configVfs := fun _ => none
  getVfNetdevName := fun _ vf => "eth" ++ toString vf
  getVfDefaultMacAddr := fun _ => ("", some "mac lookup failed")

/-- A sriovnet environment in which one PF succeeds with two VFs with
distinct MAC-derived ids. -/
def distinctMacEnv : SriovEnv where
  enableSriov := fun _ => none
  getPfNetdevHandle := fun _ => Except.ok { list := [0, 1] }
  configVfs := fun _ => none
  getVfNetdevName := fun _ vf => "eth" ++ toString vf
  getVfDefaultMacAddr := fun n => ("mac-" ++ n, none)

/-- A plugin that has been started and not yet stopped. -/
def startedState : PluginState where
  devs := [{ id := "mac0", health := Health.healthy }]
  server := some ()
  stopClosed := false
  healthClosed := false
  socketExists := true
  registered := true

/-- A plugin that has never been started. -/
def freshState : PluginState where
  devs := []
  server := none
  stopClosed := false
  healthClosed := false
  socketExists := false
  registered := false

/-- A transport in which binding and probing succeed and the
registration dial fails. -/
def regFailEnv : ServeEnv where
  listenErr := none
  probeErr := none
  registerDialErr := some "dial kubelet failed"
  registerCallErr := none

/-! ## Claims -/

/-- C1: each health signal consumed by a running ListAndWatch call
yields exactly one re-emission of the full device list, in which the
signalled device is Unhealthy and every other device's health is
unchanged; re-signalling an already-Unhealthy device is idempotent and
still yields exactly one emission. -/
theorem listAndWatch_health_signal_frame (sendOk : Nat → Bool)
    (devs : List Device) (i k : Nat) (evs : List LWEvent)
    (h : i < devs.length) :
    (lwLoop sendOk devs k (LWEvent.healthSig i :: evs)).emissions
        = setUnhealthy devs i
            :: (lwLoop sendOk (setUnhealthy devs i) (k + 1) evs).emissions
    ∧ ((setUnhealthy devs i)[i]?).map Device.health = some Health.unhealthy
    ∧ (∀ j, j ≠ i → (setUnhealthy devs i)[j]? = devs[j]?)
    ∧ setUnhealthy (setUnhealthy devs i) i = setUnhealthy devs i
    ∧ (lwLoop sendOk (setUnhealthy devs i) k (LWEvent.healthSig i :: evs)).emissions
        = setUnhealthy devs i
            :: (lwLoop sendOk (setUnhealthy devs i) (k + 1) evs).emissions := by
  refine ⟨rfl, setUnhealthy_getElem_self devs i h,
    fun j hj => setUnhealthy_getElem_ne devs i j hj, setUnhealthy_idem devs i, ?_⟩
  rw [lwLoop_healthSig]
  simp only [setUnhealthy_idem]

theorem listAndWatch_health_signal_frame_witness :
    ((setUnhealthy [{ id := "mac0", health := Health.healthy },
                    { id := "mac1", health := Health.healthy }] 0)[0]?).map Device.health
      = some Health.unhealthy :=
  (listAndWatch_health_signal_frame (fun _ => true)
    [{ id := "mac0", health := Health.healthy },
     { id := "mac1", health := Health.healthy }] 0 1 [] (by decide)).2.1

/-- C2: Allocate maps a batch of k container requests (k = 0 included)
to exactly k container responses, each holding the single device spec
`/dev/infiniband:/dev/infiniband:rwm`; the request content has no
effect, and Allocate never returns an error. -/
theorem allocate_contract (reqs : List ContainerAllocateRequest) :
    Allocate reqs =
      Except.ok ⟨reqs.map (fun _ => ⟨[rdmaDeviceSpec]⟩)⟩
    ∧ (∃ resp, Allocate reqs = Except.ok resp
        ∧ resp.containerResponses.length = reqs.length
        ∧ ∀ cr ∈ resp.containerResponses, cr.devices = [rdmaDeviceSpec])
    ∧ rdmaDeviceSpec.hostPath = RdmaDevices
    ∧ rdmaDeviceSpec.containerPath = RdmaDevices
    ∧ rdmaDeviceSpec.permissions = "rwm"
    ∧ (∀ reqs2 : List ContainerAllocateRequest,
        reqs2.length = reqs.length → Allocate reqs2 = Allocate reqs)
    ∧ (∀ err : String, ¬ Allocate reqs = Except.error err) := by
  refine ⟨rfl, ⟨_, rfl, List.length_map _ _, ?_⟩, rfl, rfl, rfl, ?_, ?_⟩
  · intro cr hcr
    rcases List.mem_map.mp hcr with ⟨req, _, hre⟩
    rw [← hre]
  · intro reqs2 hlen
    rw [Allocate, Allocate]
    have h1 : reqs2.map (fun _ => ({ devices := [rdmaDeviceSpec] } : ContainerAllocateResponse))
        = List.replicate reqs2.length { devices := [rdmaDeviceSpec] } :=
      List.map_const' reqs2 _
    have h2 : reqs.map (fun _ => ({ devices := [rdmaDeviceSpec] } : ContainerAllocateResponse))
        = List.replicate reqs.length { devices := [rdmaDeviceSpec] } :=
      List.map_const' reqs _
    rw [h1, h2, hlen]
  · intro err herr
    simp [Allocate] at herr

theorem allocate_contract_witness :
    Allocate [{ devicesIDs := ["mac7"] }] = Allocate [{ devicesIDs := [] }] :=
  (allocate_contract [{ devicesIDs := [] }]).2.2.2.2.2.1
    [{ devicesIDs := ["mac7"] }] rfl

/-- C7: the first emission of every fresh ListAndWatch call is the
immediate snapshot of the current in-memory device list. -/
theorem listAndWatch_first_emission_snapshot (sendOk : Nat → Bool)
    (devs : List Device) (events : List LWEvent) :
    (listAndWatchRun sendOk devs events).emissions.head? = some devs := rfl

/-- C10: ListAndWatch discards the result of every stream send — the
emitted lists, the final device list and the exit status are the same
under any send-outcome oracle; the call returns only when the stop
signal is consumed, and then always with a nil error. -/
theorem listAndWatch_send_result_discarded (o1 o2 : Nat → Bool)
    (devs : List Device) (events : List LWEvent) :
    (listAndWatchRun o1 devs events).finalDevs
        = (listAndWatchRun o2 devs events).finalDevs
    ∧ (listAndWatchRun o1 devs events).emissions
        = (listAndWatchRun o2 devs events).emissions
    ∧ (listAndWatchRun o1 devs events).exit = (listAndWatchRun o2 devs events).exit
    ∧ ((listAndWatchRun o1 devs events).exit = some none ↔ LWEvent.stop ∈ events)
    ∧ (∀ e : String, ¬ (listAndWatchRun o1 devs events).exit = some (some e)) := by
  rcases lwLoop_oracle_indep o1 o2 events devs 1 1 with ⟨h1, h2, h3⟩
  rcases lwLoop_exit_iff_stop o1 events devs 1 with ⟨h4, h5⟩
  exact ⟨h1, congrArg (List.cons devs) h2, h3, h4, h5⟩

theorem listAndWatch_send_result_discarded_witness :
    (listAndWatchRun (fun _ => false) [] [LWEvent.stop]).exit = some none :=
  ((listAndWatch_send_result_discarded (fun _ => false) (fun _ => true)
      [] [LWEvent.stop]).2.2.2.1).mpr (by decide)

/-- C3: the inventory builder processes the PF names in order; a PF
whose SR-IOV enablement, handle acquisition, or VF provisioning fails
contributes zero devices while processing continues, so the inventory
is the in-order concatenation of the VF devices of the successful PFs,
its length is the sum of the per-PF VF counts, and an empty input list
yields an empty inventory. -/
theorem inventory_build (env : SriovEnv) (l : List String) :
    newRdmaSriovDevPluginDevs env l = l.flatMap (pfVfDevices env)
    ∧ (newRdmaSriovDevPluginDevs env l).length
        = (l.map (fun n => (pfVfDevices env n).length)).sum
    ∧ newRdmaSriovDevPluginDevs env [] = []
    ∧ (∀ n e, configSriov env n = Except.error e → pfVfDevices env n = [])
    ∧ (∀ n e, env.enableSriov n = some e → pfVfDevices env n = [])
    ∧ (∀ n e, env.enableSriov n = none →
        env.getPfNetdevHandle n = Except.error e → pfVfDevices env n = [])
    ∧ (∀ n h e, env.enableSriov n = none →
        env.getPfNetdevHandle n = Except.ok h → env.configVfs h = some e →
        pfVfDevices env n = []) := by
  refine ⟨newDevs_eq_bind env l, ?_, rfl, ?_, ?_, ?_, ?_⟩
  · rw [newDevs_eq_bind env l, List.length_flatMap]; rfl
  · intro n e he
    simp [pfVfDevices, he]
  · intro n e he
    simp [pfVfDevices, configSriov, he]
  · intro n e h1 h2
    simp [pfVfDevices, configSriov, h1, h2]
  · intro n h e h1 h2 h3
    simp [pfVfDevices, configSriov, h1, h2, h3]

theorem inventory_build_witness : pfVfDevices failEnv "ens1f0" = [] :=
  (inventory_build failEnv ["ens1f0"]).2.2.2.2.1 "ens1f0" "sriov not supported" rfl

/-- C4: every device is Healthy at build time; a ListAndWatch run never
changes the device list's length or the devices' ids and only ever
moves a device's health towards Unhealthy (an Unhealthy device never
recovers), and the lifecycle operations never touch the device list. -/
theorem device_invariants (env : SriovEnv) (cfg : List String)
    (sendOk : Nat → Bool) (devs : List Device) (events : List LWEvent)
    (tenv : ServeEnv) (s : PluginState) :
    (∀ d ∈ newRdmaSriovDevPluginDevs env cfg, d.health = Health.healthy)
    ∧ (listAndWatchRun sendOk devs events).finalDevs.length = devs.length
    ∧ (listAndWatchRun sendOk devs events).finalDevs.map Device.id
        = devs.map Device.id
    ∧ (∀ em ∈ (listAndWatchRun sendOk devs events).emissions,
        em.length = devs.length ∧ em.map Device.id = devs.map Device.id)
    ∧ (∀ j : Nat, (devs[j]?).map Device.health = some Health.unhealthy →
        ((listAndWatchRun sendOk devs events).finalDevs[j]?).map Device.health
          = some Health.unhealthy)
    ∧ (Stop s).1.devs = s.devs
    ∧ (Start tenv s).1.devs = s.devs
    ∧ (Serve tenv s).1.devs = s.devs := by
  refine ⟨?_, lwLoop_finalDevs_length sendOk events devs 1,
    lwLoop_finalDevs_map_id sendOk events devs 1, ?_,
    fun j h => lwLoop_health_mono sendOk events devs 1 j h,
    Stop_devs s, Start_devs tenv s, Serve_devs tenv s⟩
  · intro d hd
    rw [newDevs_eq_bind] at hd
    rcases List.mem_flatMap.mp hd with ⟨n, _, hdn⟩
    exact pfVfDevices_health env n d hdn
  · intro em hm
    have hem : (listAndWatchRun sendOk devs events).emissions
        = devs :: (lwLoop sendOk devs 1 events).emissions := rfl
    rw [hem] at hm
    rcases List.mem_cons.mp hm with h | h
    · subst h; exact ⟨rfl, rfl⟩
    · exact lwLoop_emissions_shape sendOk events devs 1 em h

theorem device_invariants_witness :
    (listAndWatchRun (fun _ => true) [{ id := "mac0", health := Health.healthy }]
        [LWEvent.healthSig 0]).finalDevs.map Device.id = ["mac0"] :=
  (device_invariants failEnv [] (fun _ => true)
    [{ id := "mac0", health := Health.healthy }] [LWEvent.healthSig 0]
    regFailEnv freshState).2.2.1

/-- C5 counterexample: on a started plugin, Stop leaves the
health-signal channel open (it closes the stop channel instead), so
the claim that Stop closes the health-signal channel is false. -/
theorem stop_health_channel_cex :
    (Stop startedState).1.healthClosed = false
    ∧ (Stop startedState).1.stopClosed = true := by
  constructor <;> rfl

/-- C5 (amended): Stop on a started plugin closes the internal stop
channel — the health-signal channel stays open — stops the server and
removes the socket file; every ListAndWatch loop returns as soon as it
consumes the stop signal, consuming no later health signal, so a
pending health-signal send is never consumed (it blocks forever on the
still-open channel). -/
theorem stop_closes_stop_channel (s : PluginState)
    (h1 : s.server = some ()) (h2 : s.stopClosed = false) :
    (Stop s).1.stopClosed = true
    ∧ (Stop s).1.healthClosed = s.healthClosed
    ∧ (Stop s).1.server = none
    ∧ (Stop s).1.socketExists = false
    ∧ (Stop s).2 = StopOutcome.ret none
    ∧ (∀ (o : Nat → Bool) (devs : List Device) (k : Nat) (evs : List LWEvent),
        lwLoop o devs k (LWEvent.stop :: evs) = ⟨devs, [], [], some none⟩) := by
  have hs : ¬ s.server = none := by rw [h1]; simp
  refine ⟨?_, ?_, ?_, ?_, ?_, fun o devs k evs => lwLoop_stop o devs k evs⟩ <;>
    simp [Stop, hs, h2, cleanup]

theorem stop_closes_stop_channel_witness :
    (Stop startedState).1.stopClosed = true :=
  (stop_closes_stop_channel startedState rfl rfl).1

/-- C6 counterexample: the builder keeps the id returned by the MAC
lookup even when that lookup fails (the error is discarded), so an
environment whose MAC lookup fails for both VFs of one PF produces an
inventory with two devices of the same (empty) id: uniqueness does not
hold unconditionally. -/
theorem inventory_ids_unique_cex :
    (newRdmaSriovDevPluginDevs dupMacEnv ["ens1f0"]).map Device.id = ["", ""]
    ∧ (((newRdmaSriovDevPluginDevs dupMacEnv ["ens1f0"]).map Device.id).Nodup
        = False) := by
  refine ⟨by decide, eq_false ?_⟩
  decide

/-- C6 (amended): the inventory's ids are the MAC-derived ids of the
successful PFs' VFs, in order; whenever those environment-derived ids
are pairwise distinct, every id in the built inventory is unique. -/
theorem inventory_ids_unique (env : SriovEnv) (l : List String)
    (h : (l.flatMap (pfVfIds env)).Nodup) :
    ((newRdmaSriovDevPluginDevs env l).map Device.id).Nodup := by
  rw [newDevs_eq_bind, List.map_flatMap]
  have he : (fun n => (pfVfDevices env n).map Device.id) = pfVfIds env :=
    funext (pfVfDevices_map_id env)
  rw [he]
  exact h

theorem inventory_ids_unique_witness :
    ((newRdmaSriovDevPluginDevs distinctMacEnv ["ens1f0"]).map Device.id).Nodup :=
  inventory_ids_unique distinctMacEnv ["ens1f0"] (by decide)

/-- C8: a first Stop on a started plugin returns no error and removes
the socket file; a second Stop is a no-op that returns no error and in
particular does not close the already-closed stop channel again (no
panic); Stop on a never-started plugin is likewise a no-op returning
no error. -/
theorem stop_twice_safe (s : PluginState)
    (h1 : s.server = some ()) (h2 : s.stopClosed = false) :
    (Stop s).2 = StopOutcome.ret none
    ∧ (Stop s).1.socketExists = false
    ∧ Stop (Stop s).1 = ((Stop s).1, StopOutcome.ret none)
    ∧ (∀ t : PluginState, t.server = none → Stop t = (t, StopOutcome.ret none)) := by
  have hs : ¬ s.server = none := by rw [h1]; simp
  have hnoop : ∀ t : PluginState, t.server = none →
      Stop t = (t, StopOutcome.ret none) := by
    intro t ht
    simp [Stop, ht]
  have hfst : (Stop s).1.server = none := by simp [Stop, hs, h2, cleanup]
  refine ⟨?_, ?_, hnoop (Stop s).1 hfst, hnoop⟩ <;> simp [Stop, hs, h2, cleanup]

theorem stop_twice_safe_witness :
    Stop (Stop startedState).1 = ((Stop startedState).1, StopOutcome.ret none) :=
  (stop_twice_safe startedState rfl rfl).2.2.1

/-- C9: if Start succeeds and registration fails, Serve runs a
compensating Stop — the final state has no running server and no
socket file, and nothing registered — and returns the registration
error; if Start itself fails, Serve returns Start's error without
registering. -/
theorem serve_register_failure_compensates (env : ServeEnv) (s : PluginState)
    (h2 : s.stopClosed = false) (h3 : s.registered = false) :
    ((Start env s).2.isSome →
        Serve env s = Start env s ∧ (Serve env s).1.registered = false)
    ∧ (∀ e, env.listenErr = none → env.probeErr = none →
        (env.registerDialErr = some e
          ∨ env.registerDialErr = none ∧ env.registerCallErr = some e) →
        (Serve env s).2 = some e
        ∧ (Serve env s).1.server = none
        ∧ (Serve env s).1.socketExists = false
        ∧ (Serve env s).1.registered = false) := by
  cases hl : env.listenErr with
  | some e0 =>
    constructor
    · intro _
      constructor
      · simp [Serve, Start, cleanup, hl]
      · simp [Serve, Start, cleanup, hl, h3]
    · intro e hl2 hp hreg
      exact absurd hl2 (by simp)
  | none =>
    cases hp : env.probeErr with
    | some e0 =>
      constructor
      · intro _
        constructor
        · simp [Serve, Start, cleanup, hl, hp]
        · simp [Serve, Start, cleanup, hl, hp, h3]
      · intro e hl2 hp2 hreg
        exact absurd hp2 (by simp)
    | none =>
      constructor
      · intro hh
        exfalso
        simp [Start, cleanup, hl, hp] at hh
      · intro e hl2 hp2 hreg
        rcases hreg with hd | ⟨hd, hc⟩
        · simp [Serve, Start, Register, Stop, cleanup, hl, hp, hd, h2, h3]
        · simp [Serve, Start, Register, Stop, cleanup, hl, hp, hd, hc, h2, h3]

theorem serve_register_failure_compensates_witness :
    (Serve regFailEnv freshState).2 = some "dial kubelet failed" :=
  ((serve_register_failure_compensates regFailEnv freshState rfl rfl).2
      "dial kubelet failed" rfl rfl (Or.inl rfl)).1

end RdmaSriov
